import Mathlib

/-!
Shallow embedding of src/coderev/__init__.py (an automated PR-review CLI).

Python strings are modelled as Lean `String`, Python `int` as `Int`
(arbitrary precision, signed), lists as `List`, dicts that preserve
insertion order as association lists `List (String × _)`.  Fallible
Python code (uncaught exceptions, SystemExit) is modelled with `Except`.
Filesystem reads and subprocess execution are modelled as explicit
oracle functions passed in, and effects (files written, processes
spawned) are returned explicitly.
-/

namespace Coderev

/-- Python whitespace predicate used by str.strip / shlex: the common
whitespace code points (ASCII whitespace plus the separators Python
treats as space in str.strip). -/
def isPyWs (c : Char) : Bool :=
  c = ' ' ∨ c = '\t' ∨ c = '\n' ∨ c = '\r' ∨ c = '\x0b' ∨ c = '\x0c' ∨
  c = '\x1c' ∨ c = '\x1d' ∨ c = '\x1e' ∨ c = '\x1f' ∨ c = '\x85' ∨ c = '\u00A0'

/-- Model of Python str.strip(): drop whitespace from both ends. -/
def pyStrip (s : String) : String :=
  String.mk (((s.data.dropWhile isPyWs).reverse.dropWhile isPyWs).reverse)

/-- Python s.startswith(pre), on the character lists. -/
def pyStartsWith (s pre : String) : Bool :=
  decide (s.data.take pre.data.length = pre.data)

/-- Line-break characters recognised by Python str.splitlines
(besides the two-character break CR LF, handled separately). -/
def isPyLineBreak (c : Char) : Bool :=
  c = '\n' ∨ c = '\r' ∨ c = '\x0b' ∨ c = '\x0c' ∨
  c = '\x1c' ∨ c = '\x1d' ∨ c = '\x1e' ∨ c = '\x85' ∨ c = '\u2028' ∨ c = '\u2029'

/-- Model of Python str.splitlines() (without keepends): a trailing
break produces no trailing empty line; CR LF counts as one break. -/
def splitlinesAux : List Char → List Char → List String
  | [], cur => if cur.isEmpty then [] else [String.mk cur.reverse]
  | '\r' :: '\n' :: rest, cur => String.mk cur.reverse :: splitlinesAux rest []
  | c :: rest, cur =>
    if isPyLineBreak c then String.mk cur.reverse :: splitlinesAux rest []
    else splitlinesAux rest (c :: cur)

def pySplitlines (s : String) : List String := splitlinesAux s.data []

/-- Model of Python str.replace for a nonempty needle: replace
non-overlapping occurrences left to right.  The fuel is the input
length; each step consumes at least one character, so the fuel never
runs out on the initial call. -/
def replaceFuel : Nat → List Char → List Char → List Char → List Char
  | 0, _, _, _ => []
  | Nat.succ f, l, pat, repl =>
    match l with
    | [] => []
    | c :: rest =>
      if List.take pat.length l = pat then
        repl ++ replaceFuel f (List.drop pat.length l) pat repl
      else c :: replaceFuel f rest pat repl

/-- Python s.replace(pat, repl); the empty-needle case (which Python
treats specially) never occurs at the call sites embedded here. -/
def pyReplace (s pat repl : String) : String :=
  if pat.data = [] then s
  else String.mk (replaceFuel s.data.length s.data pat.data repl.data)

/-- Python s[:n] slicing: nonnegative n truncates to n characters,
negative n counts from the end (clamped at 0). -/
def pySliceTo (s : String) (n : Int) : String :=
  if 0 ≤ n then String.mk (s.data.take n.toNat)
  else String.mk (s.data.take (s.data.length - n.natAbs))

/-- Lowercasing as used for mode/env comparisons (ASCII, matching the
values compared against in the source). -/
def pyLower (s : String) : String := String.mk (s.data.map Char.toLower)

/-- Numeric value of a digit string (the digits captured by the hunk
regex are ASCII decimal digits). -/
def natOfDigits (l : List Char) : Nat :=
  l.foldl (fun a c => 10 * a + (c.toNat - '0'.toNat)) 0

/-- Model of Python int(str) for the ASCII decimal forms: optional
surrounding whitespace, optional sign, then digits. -/
def pyIntOfString (s : String) : Option Int :=
  let t := (pyStrip s).data
  match t with
  | '-' :: ds => if ds ≠ [] ∧ ds.all Char.isDigit then some (-(natOfDigits ds : Int)) else none
  | '+' :: ds => if ds ≠ [] ∧ ds.all Char.isDigit then some ((natOfDigits ds : Int)) else none
  | ds => if ds ≠ [] ∧ ds.all Char.isDigit then some ((natOfDigits ds : Int)) else none

/-- Association-list lookup (Python dict / os.environ membership). -/
def lookupKV {α : Type} : List (String × α) → String → Option α
  | [], _ => none
  | (k, v) :: rest, key => if k = key then some v else lookupKV rest key

/-- Inclusive integer range, Python range(start, stop + 1) over ints. -/
def intRange (a b : Int) : List Int :=
  (List.range (b + 1 - a).toNat).map (fun k => a + (k : Int))

/-- Python format {i:6d} for the line numbers printed in snippets:
right-align in width 6 with spaces. -/
def pad6 (i : Int) : String :=
  let s := toString i
  String.mk (List.replicate (6 - s.length) ' ') ++ s

-- ----------------------------
-- Diff context extraction (ChangedHunk, HUNK_RE, parse_changed_hunks)
-- ----------------------------

/-- Immutable dataclass ChangedHunk. -/
structure ChangedHunk where
  file_path : String
  start_new : Int
  count_new : Int
  start_old : Int
  count_old : Int
deriving DecidableEq, Repr

/-- Attempt of HUNK_RE = "@@ -(d+)(?:,(d+))? \+(d+)(?:,(d+))? @@"
anchored at the start of the character list.  The pattern is
deterministic: the digit groups are maximal runs and the optional
comma groups cannot backtrack (a digit can never match the following
mandatory space), so this function matches the regex exactly. -/
def hunkMatchAt (l : List Char) : Option (Nat × Option Nat × Nat × Option Nat) :=
  match l with
  | '@' :: '@' :: ' ' :: '-' :: r0 =>
    let d1 := r0.takeWhile Char.isDigit
    if d1 = [] then none else
    let r1 := r0.drop d1.length
    let (oc, r2) : Option Nat × List Char :=
      match r1 with
      | ',' :: r1a =>
        let d2 := r1a.takeWhile Char.isDigit
        if d2 = [] then (none, [','])  -- dead marker: " +" can never follow
        else (some (natOfDigits d2), r1a.drop d2.length)
      | _ => (none, r1)
    match r2 with
    | ' ' :: '+' :: r3 =>
      let d3 := r3.takeWhile Char.isDigit
      if d3 = [] then none else
      let r4 := r3.drop d3.length
      let (nc, r5) : Option Nat × List Char :=
        match r4 with
        | ',' :: r4a =>
          let d4 := r4a.takeWhile Char.isDigit
          if d4 = [] then (none, [','])
          else (some (natOfDigits d4), r4a.drop d4.length)
        | _ => (none, r4)
      match r5 with
      | ' ' :: '@' :: '@' :: _ => some (natOfDigits d1, oc, natOfDigits d3, nc)
      | _ => none
    | _ => none
  | _ => none

/-- HUNK_RE.search: leftmost occurrence of the pattern in the line. -/
def hunkSearch : List Char → Option (Nat × Option Nat × Nat × Option Nat)
  | [] => none
  | c :: rest =>
    match hunkMatchAt (c :: rest) with
    | some r => some r
    | none => hunkSearch rest

/-- The body of the line loop of parse_changed_hunks, carrying the
current_file tracker.  Note the Python guard is `if m and current_file:`
so an empty current_file (falsy) also drops the hunk. -/
def parseLinesAux : List String → Option String → List ChangedHunk
  | [], _ => []
  | l :: ls, cur =>
    if pyStartsWith l "diff --git " then parseLinesAux ls none
    else if pyStartsWith l "+++ b/" then
      parseLinesAux ls (some (pyStrip (String.mk (l.data.drop 6))))
    else
      match hunkSearch l.data, cur with
      | some (o1, oc, n1, nc), some f =>
        if f = "" then parseLinesAux ls cur
        else
          { file_path := f
            start_new := (n1 : Int)
            count_new := ((nc.getD 1 : Nat) : Int)
            start_old := (o1 : Int)
            count_old := ((oc.getD 1 : Nat) : Int) } :: parseLinesAux ls cur
      | _, _ => parseLinesAux ls cur

/-- parse_changed_hunks(diff_text). -/
def parse_changed_hunks (diff_text : String) : List ChangedHunk :=
  parseLinesAux (pySplitlines diff_text) none

/-- One step of the current_file tracker, as specification vocabulary:
what the loop's current_file becomes after seeing one line. -/
def fileUpdate (cur : Option String) (l : String) : Option String :=
  if pyStartsWith l "diff --git " then none
  else if pyStartsWith l "+++ b/" then some (pyStrip (String.mk (l.data.drop 6)))
  else cur

/-- The current_file in force when line i is processed, starting from
tracker state cur. -/
def trackedFileFrom (cur : Option String) (ls : List String) (i : Nat) : Option String :=
  (ls.take i).foldl fileUpdate cur

/-- The current_file in force when line i of the diff is processed. -/
def trackedFile (ls : List String) (i : Nat) : Option String :=
  trackedFileFrom none ls i

/-- Whether a line is treated as a hunk header by the loop (lines
consumed as file boundaries or file headers are not). -/
def hunkHeaderOf (l : String) : Option (Nat × Option Nat × Nat × Option Nat) :=
  if pyStartsWith l "diff --git " ∨ pyStartsWith l "+++ b/" then none
  else hunkSearch l.data

-- ----------------------------
-- Snippet builder (build_context_snippets)
-- ----------------------------

/-- The grouped dict of build_context_snippets:
grouped.setdefault(h.file_path, []).append(h), with Python dicts
preserving first-insertion key order. -/
def groupByFile (hs : List ChangedHunk) : List (String × List ChangedHunk) :=
  hs.foldl (fun acc h =>
    if acc.any (fun p => p.1 = h.file_path) then
      acc.map (fun p => if p.1 = h.file_path then (p.1, p.2 ++ [h]) else p)
    else acc ++ [(h.file_path, [h])]) []

/-- Python sep.join(parts). -/
def joinSep (sep : String) : List String → String
  | [] => ""
  | [x] => x
  | x :: xs => x ++ sep ++ joinSep sep xs

/-- The per-file truncation step of build_context_snippets: the
combined text is cut at per_file_max_chars and a truncation marker is
appended when it was longer. -/
def capSnippet (per_file_max_chars : Int) (combined : String) : String :=
  if (combined.length : Int) > per_file_max_chars then
    pySliceTo combined per_file_max_chars ++ "\n... (snippet truncated) ..."
  else combined

/-- The per-file body of build_context_snippets: one labelled block
per hunk (window of context_lines around the changed range, changed
lines marked with a distinct two-character mark), blocks joined by a
blank line, the whole stripped, then truncated to the per-file
budget. -/
def fileSnippet (rel : String) (lines : List String) (fhunks : List ChangedHunk)
    (context_lines : Int) (per_file_max_chars : Int) : String :=
  let parts := fhunks.map (fun h =>
    let start := max 1 (h.start_new - context_lines)
    let stop := min (lines.length : Int) (h.start_new + max h.count_new 1 + context_lines - 1)
    let block := (intRange start stop).map (fun i =>
      let mark := if h.start_new ≤ i ∧ i < h.start_new + max h.count_new 1 then ">>" else "  "
      mark ++ " " ++ pad6 i ++ " | " ++ lines.getD (i - 1).toNat "")
    "--- Context around hunk (+" ++ toString h.start_new ++ "," ++ toString h.count_new
      ++ ") in " ++ rel ++ " ---\n" ++ joinSep "\n" block)
  capSnippet per_file_max_chars (pyStrip (joinSep "\n\n" parts))

/-- build_context_snippets.  The filesystem is an oracle mapping a
path (relative to the repo root) to the splitlines of its decoded
text; `none` models a missing path or a directory (skipped files).
Output is the snippets dict as an association list in insertion
order. -/
def build_context_snippets (fsRead : String → Option (List String))
    (hunks : List ChangedHunk) (context_lines : Int) (per_file_max_chars : Int) :
    List (String × String) :=
  (groupByFile hunks).filterMap (fun rp =>
    match fsRead rp.1 with
    | none => none
    | some lines => some (rp.1, fileSnippet rp.1 lines rp.2 context_lines per_file_max_chars))

-- ----------------------------
-- Python-level error outcomes
-- ----------------------------

/-- Terminal outcomes of the process: an explicit SystemExit(code)
preceded by a message on stderr, or an uncaught exception (KeyError /
ValueError), which makes the interpreter exit with status 1. -/
inductive PyErr where
  | systemExit (code : Int) (msg : String)
  | keyError (key : String)
  | valueError (msg : String)
deriving DecidableEq, Repr

/-- The process exit status produced by each terminal outcome: a
SystemExit carries its code; an uncaught exception makes the Python
interpreter print a traceback and exit with status 1. -/
def exitCodeOf : PyErr → Int
  | .systemExit c _ => c
  | .keyError _ => 1
  | .valueError _ => 1

-- ----------------------------
-- Config loader (the nested _default of main, plus argparse override)
-- ----------------------------

/-- Values appearing as config-file entries / defaults (the source
only ever uses str, int and bool fallbacks; config files may also
hold lists of strings, e.g. obey-doc). -/
inductive PyVal where
  | vStr (s : String)
  | vInt (n : Int)
  | vBool (b : Bool)
  | vList (l : List String)
deriving DecidableEq, Repr

/-- The env-string conversion of _default, keyed on the runtime type
of the fallback: bool fallback tests v.lower() in ("1","true","yes"),
int fallback applies int(v) (ValueError on bad input), anything else
returns the string unchanged. -/
def convertEnv (fallback : PyVal) (v : String) : Except PyErr PyVal :=
  match fallback with
  | .vBool _ => .ok (.vBool (["1", "true", "yes"].contains (pyLower v)))
  | .vInt _ =>
    match pyIntOfString v with
    | some n => .ok (.vInt n)
    | none => .error (.valueError ("invalid literal for int() with base 10: " ++ v))
  | _ => .ok (.vStr v)

/-- _default(key, env_var, fallback) from main: environment variable
(when declared and set) beats the config file, which beats the
hard-coded fallback. -/
def defaultSetting (environ : List (String × String)) (cfg : List (String × PyVal))
    (key : String) (env_var : Option String) (fallback : PyVal) : Except PyErr PyVal :=
  match env_var with
  | some ev =>
    if ev = "" then .ok ((lookupKV cfg key).getD fallback)
    else
      match lookupKV environ ev with
      | some v => convertEnv fallback v
      | none => .ok ((lookupKV cfg key).getD fallback)
  | none => .ok ((lookupKV cfg key).getD fallback)

/-- Resolution of one setting through argparse: an explicitly given
CLI flag value is used as-is, otherwise argparse falls back to the
default computed by _default. -/
def resolveSetting (cliValue : Option PyVal) (environ : List (String × String))
    (cfg : List (String × PyVal)) (key : String) (env_var : Option String)
    (fallback : PyVal) : Except PyErr PyVal :=
  match cliValue with
  | some v => .ok v
  | none => defaultSetting environ cfg key env_var fallback

-- ----------------------------
-- Pluggable agent runner (AgentSpec, load_agent_spec, run_agent)
-- ----------------------------

/-- Immutable dataclass AgentSpec. -/
structure AgentSpec where
  name : String
  cmd : List String
  mode : String
  cwd : String := "."
  env : Option (List (String × String)) := none
deriving DecidableEq, Repr

/-- The JSON "cmd" field: a single string or an array of strings. -/
inductive CmdVal where
  | str (s : String)
  | arr (l : List String)
deriving DecidableEq, Repr

/-- The parsed JSON object passed as --agent-config, with each field
present or absent. -/
structure RawAgentJson where
  name : Option String := none
  cmd : Option CmdVal := none
  mode : Option String := none
  cwd : Option String := none
  env : Option (List (String × String)) := none
deriving DecidableEq, Repr

/-- Quote state of the shlex scanner. -/
inductive ShQuote where
  | noQ
  | inSingle
  | inDouble
deriving DecidableEq, Repr

/-- Whitespace that separates shlex tokens (shlex.whitespace). -/
def isShlexWs (c : Char) : Bool := c = ' ' ∨ c = '\t' ∨ c = '\r' ∨ c = '\n'

/-- The single-quote character (code point 39). -/
def squoteChar : Char := Char.ofNat 39

/-- Model of shlex.split (POSIX mode, whitespace_split): single quotes
are literal, double quotes allow backslash to escape a backslash or a
double quote, a bare backslash escapes the next character; an open
quote or a trailing backslash raises ValueError. -/
def shlexAux : List Char → ShQuote → Option (List Char) → List (List Char) →
    Except String (List (List Char))
  | [], .noQ, cur, acc => .ok (acc ++ (match cur with | none => [] | some t => [t]))
  | [], .inSingle, _, _ => .error "No closing quotation"
  | [], .inDouble, _, _ => .error "No closing quotation"
  | c :: rest, .noQ, cur, acc =>
    if c = '\\' then
      match rest with
      | [] => .error "No escaped character"
      | c2 :: rs => shlexAux rs .noQ (some (cur.getD [] ++ [c2])) acc
    else if c = squoteChar then shlexAux rest .inSingle (some (cur.getD [])) acc
    else if c = '"' then shlexAux rest .inDouble (some (cur.getD [])) acc
    else if isShlexWs c then
      shlexAux rest .noQ none (acc ++ (match cur with | none => [] | some t => [t]))
    else shlexAux rest .noQ (some (cur.getD [] ++ [c])) acc
  | c :: rest, .inSingle, cur, acc =>
    if c = squoteChar then shlexAux rest .noQ cur acc
    else shlexAux rest .inSingle (some (cur.getD [] ++ [c])) acc
  | c :: rest, .inDouble, cur, acc =>
    if c = '"' then shlexAux rest .noQ cur acc
    else if c = '\\' then
      match rest with
      | [] => .error "No escaped character"
      | c2 :: rs =>
        if c2 = '"' ∨ c2 = '\\' then shlexAux rs .inDouble (some (cur.getD [] ++ [c2])) acc
        else shlexAux rs .inDouble (some (cur.getD [] ++ ['\\', c2])) acc
    else shlexAux rest .inDouble (some (cur.getD [] ++ [c])) acc

/-- shlex.split(s). -/
def shlexSplit (s : String) : Except String (List String) :=
  (shlexAux s.data .noQ none []).map (List.map String.mk)

/-- The built-in preset table of load_agent_spec. -/
def presets (n : String) : Option AgentSpec :=
  if n = "codex" then
    some { name := "codex", cmd := ["codex", "exec", "-"], mode := "stdin" }
  else if n = "copilot" then
    some { name := "copilot", cmd := ["copilot", "--prompt-file", "{prompt_file}"], mode := "file" }
  else none

/-- load_agent_spec(agent, agent_config).  agent_config is the parsed
JSON object when the flag/env value was nonempty (main passes
args.agent_config or None).  A JSON object with no "cmd" key raises
an uncaught KeyError; a shlex failure on a string cmd raises an
uncaught ValueError; an unknown agent name without a spec exits 2. -/
def load_agent_spec (agent : String) (agent_config : Option RawAgentJson) :
    Except PyErr AgentSpec :=
  match agent_config with
  | some raw =>
    match raw.cmd with
    | none => .error (.keyError "cmd")
    | some cv =>
      match (match cv with | .str s => shlexSplit s | .arr l => .ok l) with
      | .error m => .error (.valueError m)
      | .ok cmdList =>
        .ok { name := raw.name.getD agent, cmd := cmdList, mode := raw.mode.getD "stdin",
              cwd := raw.cwd.getD ".", env := raw.env }
  | none =>
    match presets agent with
    | some sp => .ok sp
    | none =>
      .error (.systemExit 2 ("Unknown agent \x27" ++ agent ++
        "\x27. Use --agent codex|copilot or provide --agent-config JSON."))

/-- Result of one subprocess.run call: returncode, stdout, stderr. -/
structure ProcResult where
  rc : Int
  out : String
  err : String
deriving DecidableEq, Repr

/-- The host environment run_agent interacts with: shutil.which, the
subprocess runner (argv and the text piped to stdin; the cwd and the
merged env overrides are applied by subprocess.run and are not
observed by any claim), os.name == "nt", Path.exists, os.environ,
and the fresh name produced by tempfile.NamedTemporaryFile. -/
structure ExecEnv where
  which : String → Option String
  exec : List String → String → ProcResult
  osIsNT : Bool
  environ : List (String × String)
  pathExists : String → Bool
  tmpName : String

/-- Everything observable about one run_agent call: its outcome, the
set of files existing afterwards (threading the explicit filesystem
state), the subprocess invocations made (argv, stdin text), and the
files written (path, content). -/
structure RunOut where
  res : Except PyErr String
  fs : List String
  calls : List (List String × String)
  written : List (String × String)
deriving Repr

/-- Model of Path(p).suffix.lower() before lowercasing: the extension
of the final path component including its dot; a leading dot or a
trailing dot yields no extension. -/
def pathSuffix (p : String) : String :=
  let nameChars := (p.data.reverse.takeWhile (fun c => c ≠ '/' ∧ c ≠ '\\')).reverse
  match nameChars with
  | [] => ""
  | _ :: tailChars =>
    let rev := tailChars.reverse
    let ext := rev.takeWhile (fun c => c ≠ '.')
    if ext.length = rev.length ∨ ext = [] then ""
    else String.mk ('.' :: ext.reverse)

/-- The os.name == "nt" re-wrapping step of run_agent: .cmd/.bat run
through ComSpec, .ps1 through powershell, each failing fatally when
the interpreter binary does not exist. -/
def ntWrap (E : ExecEnv) (resolved : String) (cmd : List String) :
    Except PyErr (List String) :=
  if E.osIsNT then
    let sfx := pyLower (pathSuffix resolved)
    if sfx = ".cmd" ∨ sfx = ".bat" then
      let comspec :=
        match lookupKV E.environ "ComSpec" with
        | some v => if v = "" then "C:\\Windows\\System32\\cmd.exe" else v
        | none => "C:\\Windows\\System32\\cmd.exe"
      if E.pathExists comspec then .ok ([comspec, "/d", "/s", "/c"] ++ cmd)
      else .error (.systemExit 2 ("ComSpec points to missing cmd.exe: " ++ comspec))
    else if sfx = ".ps1" then
      let ps :=
        match E.which "powershell" with
        | some v => if v = "" then "C:\\Windows\\System32\\WindowsPowerShell\\v1.0\\powershell.exe" else v
        | none => "C:\\Windows\\System32\\WindowsPowerShell\\v1.0\\powershell.exe"
      if E.pathExists ps then
        .ok ([ps, "-NoProfile", "-ExecutionPolicy", "Bypass", "-File"] ++ cmd)
      else .error (.systemExit 2 ("powershell.exe not found (resolved: " ++ ps ++ ")"))
    else .ok cmd
  else .ok cmd

/-- The tail of run_agent after the subprocess returns: a non-zero
exit relays the captured stderr and raises SystemExit with the same
code, success returns the captured stdout. -/
def finishRun (cp : ProcResult) : Except PyErr String :=
  if cp.rc ≠ 0 then .error (.systemExit cp.rc cp.err) else .ok cp.out

/-- Insertion of a (fresh) file into the modelled filesystem. -/
def insertFile (fs : List String) (t : String) : List String :=
  if t ∈ fs then fs else fs ++ [t]

/-- os.remove on the modelled filesystem. -/
def removeFile (fs : List String) (t : String) : List String :=
  fs.filter (fun x => x ≠ t)

/-- run_agent(agent, prompt, repo).  fs0 is the set of files existing
before the call; the temp file of file mode is created inside the
mode dispatch and removed in the finally block before the non-zero
exit check runs. -/
def run_agent (E : ExecEnv) (agent : AgentSpec) (prompt : String) (fs0 : List String) :
    RunOut :=
  match agent.cmd with
  | [] => ⟨.error (.systemExit 2 "Agent cmd is empty."), fs0, [], []⟩
  | exe :: rest =>
    match E.which exe with
    | none => ⟨.error (.systemExit 2 ("Command not found on PATH: " ++ exe)), fs0, [], []⟩
    | some resolved =>
      match ntWrap E resolved (resolved :: rest) with
      | .error e => ⟨.error e, fs0, [], []⟩
      | .ok cmd =>
        if agent.mode = "stdin" then
          let cp := E.exec cmd prompt
          ⟨finishRun cp, fs0, [(cmd, prompt)], []⟩
        else if agent.mode = "arg" then
          let cmd2 := cmd.map (fun a => pyReplace a "{prompt}" prompt)
          let cp := E.exec cmd2 prompt
          ⟨finishRun cp, fs0, [(cmd2, prompt)], []⟩
        else if agent.mode = "file" then
          let tmp := E.tmpName
          let fs1 := insertFile fs0 tmp
          let cmd2 := cmd.map (fun a => pyReplace a "{prompt_file}" tmp)
          let cp := E.exec cmd2 prompt
          let fs2 := removeFile fs1 tmp
          ⟨finishRun cp, fs2, [(cmd2, prompt)], [(tmp, prompt)]⟩
        else
          ⟨.error (.systemExit 2 ("Unknown agent mode \x27" ++ agent.mode ++
            "\x27. Expected stdin|arg|file.")), fs0, [], []⟩

/-- The sanitisation main applies to the assembled prompt before
handing it to the agent runner:
prompt = prompt.replace(u2011, "-") with u2011 the non-breaking
hyphen. -/
def sanitizePrompt (p : String) : String := pyReplace p "\u2011" "-"

-- ----------------------------
-- Specification vocabulary and concrete fixtures
-- ----------------------------

/-- Claim-side description of the record the parser should produce
for line i of the diff: the ranges of the hunk header at i (counts
defaulting to 1), attributed to the file tracked since the last file
boundary; no record when line i is not a hunk header or no (nonempty)
file is in force. -/
def hunkRecordAt (ls : List String) (cur : Option String) (i : Nat) : Option ChangedHunk :=
  match hunkHeaderOf (ls.getD i ""), trackedFileFrom cur ls i with
  | some (o1, oc, n1, nc), some f =>
    if f = "" then none
    else some { file_path := f, start_new := (n1 : Int), count_new := ((nc.getD 1 : Nat) : Int),
                start_old := (o1 : Int), count_old := ((oc.getD 1 : Nat) : Int) }
  | _, _ => none

/-- A 20-line file, used to instantiate the snippet-window claim. -/
def lines20 : List String := (List.range 20).map (fun i => "L" ++ toString (i + 1))

/-- Filesystem fixture mapping a.txt to the 20-line file. -/
def fsA (p : String) : Option (List String) := if p = "a.txt" then some lines20 else none

/-- Filesystem fixture with a one-line file a. -/
def fsB (p : String) : Option (List String) := if p = "a" then some ["x"] else none

/-- Hunk fixture +12,5 in a.txt. -/
def hunk12 : ChangedHunk :=
  { file_path := "a.txt", start_new := 12, count_new := 5, start_old := 10, count_old := 3 }

/-- Hunk fixture +1,1 in a. -/
def hunkB : ChangedHunk :=
  { file_path := "a", start_new := 1, count_new := 1, start_old := 1, count_old := 1 }

/-- A tiny diff whose single hunk header is preceded by a file line. -/
def diffC1 : String := "diff --git a/x b/x\n+++ b/x\n@@ -1,2 +3,4 @@"

/-- PATH oracle fixture: only mycli resolves. -/
def whichW : String → Option String :=
  fun e => if e = "mycli" then some "/usr/bin/mycli" else none

/-- Subprocess fixture: an invocation with --fail exits 3 with stderr
boom, anything else exits 0 printing OK. -/
def execW : List String → String → ProcResult :=
  fun argv _ => if argv.any (fun a => decide (a = "--fail")) then ⟨3, "", "boom"⟩ else ⟨0, "OK", ""⟩

/-- A POSIX host environment fixture. -/
def envW : ExecEnv :=
  { which := whichW, exec := execW, osIsNT := false, environ := [],
    pathExists := fun _ => false, tmpName := "/tmp/coderev_prompt.md" }

/-- AgentSpec fixtures exercising the run_agent branches. -/
def spEmpty : AgentSpec := { name := "x", cmd := [], mode := "stdin" }

def spMissing : AgentSpec := { name := "x", cmd := ["nosuch"], mode := "stdin" }

def spBadMode : AgentSpec := { name := "x", cmd := ["mycli"], mode := "weird" }

def spOk : AgentSpec := { name := "x", cmd := ["mycli"], mode := "stdin" }

def spFail : AgentSpec := { name := "x", cmd := ["mycli", "--fail"], mode := "stdin" }

def spFile : AgentSpec :=
  { name := "x", cmd := ["mycli", "--prompt-file", "{prompt_file}"], mode := "file" }

/-- Agent JSON fixture whose cmd is a single string. -/
def rawStrCmd : RawAgentJson :=
  { name := some "mycli", cmd := some (.str "mycli review --in {prompt_file}"),
    mode := some "file" }

-- ----------------------------
-- Helper lemmas
-- ----------------------------

theorem data_append (s t : String) : (s ++ t).data = s.data ++ t.data := rfl

theorem str_length_append (a b : String) : (a ++ b).length = a.length + b.length := by
  cases a with
  | mk la => cases b with
    | mk lb => exact List.length_append la lb

theorem length_filterMap_eq_length_filter {α β : Type} (f : α → Option β) (l : List α) :
    (l.filterMap f).length = (l.filter (fun a => (f a).isSome)).length := by
  induction l with
  | nil => rfl
  | cons a l ih => cases hf : f a <;> simp [List.filterMap_cons, List.filter_cons, hf, ih]

theorem hunkRecordAt_cons_zero (l : String) (ls : List String) (cur : Option String) :
    hunkRecordAt (l :: ls) cur 0 =
      (match hunkHeaderOf l, cur with
       | some (o1, oc, n1, nc), some f =>
         if f = "" then none
         else some { file_path := f, start_new := (n1 : Int),
                     count_new := ((nc.getD 1 : Nat) : Int), start_old := (o1 : Int),
                     count_old := ((oc.getD 1 : Nat) : Int) }
       | _, _ => none) := by
  simp [hunkRecordAt, trackedFileFrom]

theorem hunkRecordAt_cons_succ (l : String) (ls : List String) (cur : Option String) (i : Nat) :
    hunkRecordAt (l :: ls) cur (i + 1) = hunkRecordAt ls (fileUpdate cur l) i := by
  simp [hunkRecordAt, trackedFileFrom]

theorem parseLinesAux_eq (ls : List String) : ∀ cur,
    parseLinesAux ls cur = (List.range ls.length).filterMap (hunkRecordAt ls cur) := by
  induction ls with
  | nil => intro cur; rfl
  | cons l ls ih =>
    intro cur
    have hr : List.range (l :: ls).length = 0 :: (List.range ls.length).map Nat.succ := by
      simp [List.range_succ_eq_map]
    rw [hr, List.filterMap_cons, List.filterMap_map]
    have hcomp : hunkRecordAt (l :: ls) cur ∘ Nat.succ = hunkRecordAt ls (fileUpdate cur l) :=
      funext (fun i => hunkRecordAt_cons_succ l ls cur i)
    rw [hcomp, hunkRecordAt_cons_zero, ← ih (fileUpdate cur l)]
    by_cases hd : pyStartsWith l "diff --git "
    · simp [parseLinesAux, hd, hunkHeaderOf, fileUpdate]
    · by_cases hp : pyStartsWith l "+++ b/"
      · simp [parseLinesAux, hd, hp, hunkHeaderOf, fileUpdate]
      · rcases hsr : hunkSearch l.data with _ | ⟨o1, oc, n1, nc⟩ <;>
          rcases cur with _ | f <;>
          simp [parseLinesAux, hd, hp, hunkHeaderOf, fileUpdate, hsr]
        by_cases hf : f = "" <;> simp [hf]

theorem parseLinesAux_counts (ls : List String) (cur : Option String) (h : ChangedHunk)
    (hm : h ∈ parseLinesAux ls cur) : 0 ≤ h.count_new ∧ 0 ≤ h.count_old := by
  rw [parseLinesAux_eq ls cur] at hm
  rcases List.mem_filterMap.mp hm with ⟨i, _, hrec⟩
  unfold hunkRecordAt at hrec
  rcases hh : hunkHeaderOf (ls.getD i "") with _ | ⟨o1, oc, n1, nc⟩ <;> rw [hh] at hrec
  · simp at hrec
  · rcases ht : trackedFileFrom cur ls i with _ | f <;> rw [ht] at hrec <;> dsimp only at hrec
    · simp at hrec
    · by_cases hf : f = ""
      · rw [if_pos hf] at hrec; simp at hrec
      · rw [if_neg hf] at hrec
        have hh2 := Option.some.inj hrec
        rw [← hh2]
        exact ⟨Int.natCast_nonneg _, Int.natCast_nonneg _⟩

-- ----------------------------
-- Claim theorems
-- ----------------------------

/-- C1: parse_changed_hunks returns, in diff order, exactly one record
per hunk-header line that has a (nonempty) current file set by a
preceding +++ b/ line since the last diff --git boundary, carrying
that path and the header's ranges; a hunk header with no current file
yields no record.  Consequently, when every hunk-header line has such
a preceding file line, the number of records equals the number of
hunk-header lines. -/
theorem parse_changed_hunks_records (diff : String) :
    parse_changed_hunks diff =
      (List.range (pySplitlines diff).length).filterMap (hunkRecordAt (pySplitlines diff) none) ∧
    ((∀ i, i < (pySplitlines diff).length →
        (hunkHeaderOf ((pySplitlines diff).getD i "")).isSome = true →
        (trackedFile (pySplitlines diff) i).getD "" ≠ "") →
      (parse_changed_hunks diff).length =
        ((List.range (pySplitlines diff).length).filter
          (fun i => (hunkHeaderOf ((pySplitlines diff).getD i "")).isSome)).length) := by
  have h1 : parse_changed_hunks diff =
      (List.range (pySplitlines diff).length).filterMap (hunkRecordAt (pySplitlines diff) none) :=
    parseLinesAux_eq (pySplitlines diff) none
  refine ⟨h1, fun hl => ?_⟩
  rw [h1, length_filterMap_eq_length_filter]
  congr 1
  apply List.filter_congr
  intro i hi
  have hi2 : i < (pySplitlines diff).length := List.mem_range.mp hi
  cases hh : hunkHeaderOf ((pySplitlines diff).getD i "") with
  | none => unfold hunkRecordAt; rw [hh]; rfl
  | some r =>
    obtain ⟨o1, oc, n1, nc⟩ := r
    have hne := hl i hi2 (by rw [hh]; rfl)
    unfold trackedFile at hne
    cases ht : trackedFileFrom none (pySplitlines diff) i with
    | none => rw [ht] at hne; simp at hne
    | some f =>
      rw [ht] at hne
      simp only [Option.getD_some] at hne
      unfold hunkRecordAt
      rw [hh, ht]
      dsimp only
      rw [if_neg hne]
      rfl

/-- C1 witness: on a concrete diff with one hunk header preceded by a
file line, the characterization and the count both hold. -/
theorem parse_changed_hunks_records_witness :
    parse_changed_hunks diffC1 =
      (List.range (pySplitlines diffC1).length).filterMap (hunkRecordAt (pySplitlines diffC1) none) ∧
    (parse_changed_hunks diffC1).length =
      ((List.range (pySplitlines diffC1).length).filter
        (fun i => (hunkHeaderOf ((pySplitlines diffC1).getD i "")).isSome)).length :=
  ⟨(parse_changed_hunks_records diffC1).1,
   (parse_changed_hunks_records diffC1).2 (by decide)⟩

/-- C2: the header "@@ -10,3 +12,5 @@" produces
start_old=10, count_old=3, start_new=12, count_new=5, and the
no-count form "@@ -1 +1 @@" defaults both counts to 1. -/
theorem hunk_header_fields :
    parse_changed_hunks "diff --git a/f.py b/f.py\n--- a/f.py\n+++ b/f.py\n@@ -10,3 +12,5 @@\n ctx" =
      [{ file_path := "f.py", start_new := 12, count_new := 5, start_old := 10, count_old := 3 }] ∧
    parse_changed_hunks "+++ b/f.py\n@@ -1 +1 @@" =
      [{ file_path := "f.py", start_new := 1, count_new := 1, start_old := 1, count_old := 1 }] := by
  constructor <;> decide

/-- C5: parse_changed_hunks is total by construction (a Lean function
returning a list on every input string, with no error outcome), and
every record it returns has nonnegative counts (they come from digit
captures or the default 1). -/
theorem parse_changed_hunks_counts_nonneg (diff : String) (h : ChangedHunk)
    (hm : h ∈ parse_changed_hunks diff) : 0 ≤ h.count_new ∧ 0 ≤ h.count_old :=
  parseLinesAux_counts (pySplitlines diff) none h hm

/-- C5 witness: a concrete record (with an explicit zero new-count)
obtained from a concrete diff satisfies the bounds. -/
theorem parse_changed_hunks_counts_nonneg_witness :
    0 ≤ (ChangedHunk.mk "a" 2 0 1 1).count_new ∧ 0 ≤ (ChangedHunk.mk "a" 2 0 1 1).count_old :=
  parse_changed_hunks_counts_nonneg "+++ b/a\n@@ -1 +2,0 @@" (ChangedHunk.mk "a" 2 0 1 1)
    (by decide)

/-- C6: for a setting with a declared environment variable that is set,
the resolved value is the environment variable's value even when the
setting is also present in the config file; an explicit CLI flag value
overrides both. -/
theorem config_env_beats_file (environ : List (String × String)) (cfg : List (String × PyVal))
    (key ev v fb : String) (c : PyVal)
    (hev : ev ≠ "") (henv : lookupKV environ ev = some v) (_hcfg : lookupKV cfg key = some c) :
    resolveSetting none environ cfg key (some ev) (.vStr fb) = .ok (.vStr v) ∧
    ∀ w, resolveSetting (some w) environ cfg key (some ev) (.vStr fb) = .ok w := by
  refine ⟨?_, fun w => rfl⟩
  simp [resolveSetting, defaultSetting, hev, henv, convertEnv]

/-- C6 witness: base-ref set in the environment and in the config file
resolves to the environment value; a CLI value wins. -/
theorem config_env_beats_file_witness :
    resolveSetting none [("CODEREV_BASE_REF", "develop")] [("base-ref", .vStr "main")]
        "base-ref" (some "CODEREV_BASE_REF") (.vStr "origin/main") = .ok (.vStr "develop") ∧
    ∀ w, resolveSetting (some w) [("CODEREV_BASE_REF", "develop")] [("base-ref", .vStr "main")]
        "base-ref" (some "CODEREV_BASE_REF") (.vStr "origin/main") = .ok w :=
  config_env_beats_file [("CODEREV_BASE_REF", "develop")] [("base-ref", .vStr "main")]
    "base-ref" "CODEREV_BASE_REF" "develop" "origin/main" (.vStr "main")
    (by decide) (by decide) (by decide)

/-- C7: an agent-config whose cmd is a single string resolves to the
same AgentSpec as the equivalent config whose cmd is the array
obtained by shell-word-splitting that string. -/
theorem agent_cmd_string_array_equiv (agent : String) (raw : RawAgentJson) (s : String)
    (l : List String) (hc : raw.cmd = some (.str s)) (hs : shlexSplit s = .ok l) :
    load_agent_spec agent (some raw) =
      load_agent_spec agent (some { raw with cmd := some (.arr l) }) := by
  simp [load_agent_spec, hc, hs]

/-- C7 witness: the documented example string splits into the expected
array and both spec forms resolve identically (to a cmd of
mycli / review / --in / placeholder). -/
theorem agent_cmd_string_array_equiv_witness :
    load_agent_spec "mycli" (some rawStrCmd) =
      load_agent_spec "mycli"
        (some { rawStrCmd with cmd := some (.arr ["mycli", "review", "--in", "{prompt_file}"]) }) ∧
    load_agent_spec "mycli" (some rawStrCmd) =
      .ok { name := "mycli", cmd := ["mycli", "review", "--in", "{prompt_file}"],
            mode := "file", cwd := ".", env := none } :=
  ⟨agent_cmd_string_array_equiv "mycli" rawStrCmd "mycli review --in {prompt_file}"
      ["mycli", "review", "--in", "{prompt_file}"] rfl rfl,
   rfl⟩

/-- C3: for a hunk over a readable file, the snippet block covers
exactly the 1-indexed inclusive window
from max(1, start_new - context_lines)
to min(line count, start_new + max(count_new,1) + context_lines - 1),
and a line i is marked changed precisely when
start_new ≤ i < start_new + max(count_new,1); all other window lines
are context. -/
theorem build_context_snippets_window (fsRead : String → Option (List String))
    (h : ChangedHunk) (ctx maxc : Int) (lines : List String)
    (hfs : fsRead h.file_path = some lines) :
    build_context_snippets fsRead [h] ctx maxc =
      [(h.file_path,
        capSnippet maxc (pyStrip ("--- Context around hunk (+" ++ toString h.start_new ++ ","
          ++ toString h.count_new ++ ") in " ++ h.file_path ++ " ---\n"
          ++ joinSep "\n"
            ((intRange (max 1 (h.start_new - ctx))
                (min (lines.length : Int) (h.start_new + max h.count_new 1 + ctx - 1))).map
              (fun i =>
                (if h.start_new ≤ i ∧ i < h.start_new + max h.count_new 1 then ">>" else "  ")
                  ++ " " ++ pad6 i ++ " | " ++ lines.getD (i - 1).toNat "")))))] := by
  unfold build_context_snippets
  have hg : groupByFile [h] = [(h.file_path, [h])] := rfl
  rw [hg, List.filterMap_cons]
  dsimp only
  rw [hfs]
  rfl

set_option maxRecDepth 4000 in
/-- C3 witness: start_new = 12, count_new = 5, context_lines = 2 over
a 20-line file spans lines 10 to 18 inclusive, with lines 12 to 16
marked changed. -/
theorem build_context_snippets_window_witness :
    build_context_snippets fsA [hunk12] 2 100000 =
      [("a.txt",
        "--- Context around hunk (+12,5) in a.txt ---\n       10 | L10\n       11 | L11\n>>     12 | L12\n>>     13 | L13\n>>     14 | L14\n>>     15 | L15\n>>     16 | L16\n       17 | L17\n       18 | L18")] := by
  rw [build_context_snippets_window fsA hunk12 2 100000 lines20 (by decide)]
  decide

theorem capSnippet_length (maxc : Int) (hm : 0 ≤ maxc) (C : String) :
    ((capSnippet maxc C).length : Int) ≤ maxc + 28 ∧
    (((capSnippet maxc C).length : Int) ≤ maxc ∨
      List.IsSuffix ("\n... (snippet truncated) ...").data (capSnippet maxc C).data) := by
  by_cases hgt : (C.length : Int) > maxc
  · unfold capSnippet
    rw [if_pos hgt]
    have h1 : (pySliceTo C maxc).length ≤ maxc.toNat := by
      unfold pySliceTo
      rw [if_pos hm]
      show (C.data.take maxc.toNat).length ≤ maxc.toNat
      rw [List.length_take]
      exact min_le_left _ _
    have h2 : (pySliceTo C maxc ++ "\n... (snippet truncated) ...").length
        = (pySliceTo C maxc).length + 28 := by
      rw [str_length_append]
      rfl
    have h3 : ((maxc.toNat : Nat) : Int) = maxc := Int.toNat_of_nonneg hm
    constructor
    · rw [h2]
      push_cast
      omega
    · right
      exact ⟨(pySliceTo C maxc).data, (data_append _ _).symm⟩
  · unfold capSnippet
    rw [if_neg hgt]
    push_neg at hgt
    exact ⟨by omega, Or.inl hgt⟩

/-- C4 counterexample: with per_file_max_chars = 0 the snippet emitted
for file a is the lone 28-character truncation marker, whose length
exceeds the zero cap, refuting length ≤ per_file_max_chars. -/
theorem snippet_cap_counterexample :
    (build_context_snippets fsB [hunkB] 0 0).map (fun p => (p.1, p.2.length)) = [("a", 28)] ∧
    ¬ ((28 : Int) ≤ 0) := ⟨by decide, by decide⟩

/-- C4 amended: every per-file snippet is at most per_file_max_chars
plus the 28-character truncation marker; it either fits within
per_file_max_chars or carries the truncation marker as a suffix
(the marker is appended after the cut, so a truncated snippet exceeds
the cap by exactly the marker length). -/
theorem snippet_cap_marker (fsRead : String → Option (List String)) (hunks : List ChangedHunk)
    (ctx maxc : Int) (hm : 0 ≤ maxc) (p s : String)
    (hmem : (p, s) ∈ build_context_snippets fsRead hunks ctx maxc) :
    (s.length : Int) ≤ maxc + 28 ∧
    ((s.length : Int) ≤ maxc ∨
      List.IsSuffix ("\n... (snippet truncated) ...").data s.data) := by
  rcases List.mem_filterMap.mp hmem with ⟨rp, _, hfn⟩
  rcases hread : fsRead rp.1 with _ | lines <;> rw [hread] at hfn <;> dsimp only at hfn
  · exact absurd hfn (by simp)
  · simp only [Option.some.injEq, Prod.mk.injEq] at hfn
    obtain ⟨hp, hsv⟩ := hfn
    subst hsv
    exact capSnippet_length maxc hm _

/-- C4 amended witness: the truncated snippet of the counterexample
input satisfies the amended bound and carries the marker. -/
theorem snippet_cap_marker_witness :
    ((("\n... (snippet truncated) ...").length : Int) ≤ 0 + 28) ∧
    ((("\n... (snippet truncated) ...").length : Int) ≤ 0 ∨
      List.IsSuffix ("\n... (snippet truncated) ...").data
        ("\n... (snippet truncated) ...").data) :=
  snippet_cap_marker fsB [hunkB] 0 0 (by decide) "a" "\n... (snippet truncated) ..." (by decide)

/-- C8: in file mode, whatever the process outcome, the prompt is
written to the fresh temporary file, the placeholder in every
argument is replaced by that file's path, the prompt is also piped to
the process's standard input, and the temporary file does not exist
after the call. -/
theorem run_agent_file_mode (E : ExecEnv) (sp : AgentSpec) (p : String) (fs0 : List String)
    (e : String) (tl : List String) (r : String)
    (hc : sp.cmd = e :: tl) (hw : E.which e = some r) (hnt : E.osIsNT = false)
    (hmo : sp.mode = "file") :
    (run_agent E sp p fs0).written = [(E.tmpName, p)] ∧
    (run_agent E sp p fs0).calls =
      [((r :: tl).map (fun a => pyReplace a "{prompt_file}" E.tmpName), p)] ∧
    E.tmpName ∉ (run_agent E sp p fs0).fs := by
  have hw2 : ntWrap E r (r :: tl) = .ok (r :: tl) := by unfold ntWrap; rw [hnt]; rfl
  unfold run_agent
  rw [hc]
  dsimp only
  rw [hw]
  dsimp only
  rw [hw2]
  dsimp only
  rw [hmo, if_neg (by decide : ¬ ("file" = "stdin")), if_neg (by decide : ¬ ("file" = "arg")),
      if_pos (rfl : "file" = "file")]
  refine ⟨rfl, rfl, ?_⟩
  simp [removeFile]

/-- C8 witness: a concrete file-mode invocation whose process fails
(exit 3): the temp file is written, substituted into the argument,
the prompt goes to stdin, and the temp file is gone afterwards. -/
theorem run_agent_file_mode_witness :
    (run_agent envW spFile "PROMPT" ["other.txt"]).written = [("/tmp/coderev_prompt.md", "PROMPT")] ∧
    (run_agent envW spFile "PROMPT" ["other.txt"]).calls =
      [((["/usr/bin/mycli", "--prompt-file", "{prompt_file}"]).map
          (fun a => pyReplace a "{prompt_file}" "/tmp/coderev_prompt.md"), "PROMPT")] ∧
    "/tmp/coderev_prompt.md" ∉ (run_agent envW spFile "PROMPT" ["other.txt"]).fs :=
  run_agent_file_mode envW spFile "PROMPT" ["other.txt"] "mycli"
    ["--prompt-file", "{prompt_file}"] "/usr/bin/mycli" rfl rfl rfl rfl

/-- C9 counterexample: an agent JSON spec with no cmd key raises an
uncaught KeyError, so the interpreter terminates with exit status 1,
not with the claimed configuration exit code 2. -/
theorem missing_cmd_uncaught :
    load_agent_spec "mycli" (some { name := some "mycli", mode := some "stdin" }) =
      .error (.keyError "cmd") ∧
    exitCodeOf (.keyError "cmd") = 1 ∧ (1 : Int) ≠ 2 := ⟨rfl, rfl, by decide⟩

/-- C9 amended: an empty agent cmd, an executable missing from PATH,
an unrecognised agent mode, and an unknown agent name without a spec
each abort with SystemExit(2) and a descriptive stderr message; a
spec missing its cmd key instead raises an uncaught KeyError (the
interpreter then exits with status 1, not 2); when the spawned agent
exits non-zero the captured stderr is relayed and the run aborts with
that same code; on success the captured stdout is returned. -/
theorem fatal_error_exit_codes :
    (∀ (E : ExecEnv) (sp : AgentSpec) (p : String) (fs0 : List String),
        sp.cmd = [] →
        (run_agent E sp p fs0).res = .error (.systemExit 2 "Agent cmd is empty.")) ∧
    (∀ (E : ExecEnv) (sp : AgentSpec) (p : String) (fs0 : List String)
        (e : String) (tl : List String),
        sp.cmd = e :: tl → E.which e = none →
        (run_agent E sp p fs0).res =
          .error (.systemExit 2 ("Command not found on PATH: " ++ e))) ∧
    (∀ (E : ExecEnv) (sp : AgentSpec) (p : String) (fs0 : List String)
        (e : String) (tl : List String) (r : String),
        sp.cmd = e :: tl → E.which e = some r → E.osIsNT = false →
        sp.mode ≠ "stdin" → sp.mode ≠ "arg" → sp.mode ≠ "file" →
        (run_agent E sp p fs0).res =
          .error (.systemExit 2 ("Unknown agent mode \x27" ++ sp.mode ++
            "\x27. Expected stdin|arg|file."))) ∧
    (∀ a : String, presets a = none →
        load_agent_spec a none =
          .error (.systemExit 2 ("Unknown agent \x27" ++ a ++
            "\x27. Use --agent codex|copilot or provide --agent-config JSON."))) ∧
    (∀ (a : String) (raw : RawAgentJson), raw.cmd = none →
        load_agent_spec a (some raw) = .error (.keyError "cmd") ∧
        exitCodeOf (.keyError "cmd") = 1) ∧
    (∀ (E : ExecEnv) (sp : AgentSpec) (p : String) (fs0 : List String)
        (e : String) (tl : List String) (r : String),
        sp.cmd = e :: tl → E.which e = some r → E.osIsNT = false → sp.mode = "stdin" →
        ((E.exec (r :: tl) p).rc ≠ 0 →
          (run_agent E sp p fs0).res =
            .error (.systemExit (E.exec (r :: tl) p).rc (E.exec (r :: tl) p).err)) ∧
        ((E.exec (r :: tl) p).rc = 0 →
          (run_agent E sp p fs0).res = .ok (E.exec (r :: tl) p).out)) := by
  refine ⟨?_, ?_, ?_, ?_, ?_, ?_⟩
  · intro E sp p fs0 hc
    unfold run_agent
    rw [hc]
  · intro E sp p fs0 e tl hc hw
    unfold run_agent
    rw [hc]
    dsimp only
    rw [hw]
  · intro E sp p fs0 e tl r hc hw hnt h1 h2 h3
    have hw2 : ntWrap E r (r :: tl) = .ok (r :: tl) := by unfold ntWrap; rw [hnt]; rfl
    unfold run_agent
    rw [hc]
    dsimp only
    rw [hw]
    dsimp only
    rw [hw2]
    dsimp only
    rw [if_neg h1, if_neg h2, if_neg h3]
  · intro a ha
    unfold load_agent_spec
    rw [ha]
  · intro a raw hr
    refine ⟨?_, rfl⟩
    unfold load_agent_spec
    dsimp only
    rw [hr]
  · intro E sp p fs0 e tl r hc hw hnt hmo
    have hw2 : ntWrap E r (r :: tl) = .ok (r :: tl) := by unfold ntWrap; rw [hnt]; rfl
    unfold run_agent
    rw [hc]
    dsimp only
    rw [hw]
    dsimp only
    rw [hw2]
    dsimp only
    rw [hmo, if_pos (rfl : "stdin" = "stdin")]
    constructor
    · intro hrc
      dsimp only
      unfold finishRun
      rw [if_pos hrc]
    · intro hrc
      dsimp only
      unfold finishRun
      rw [if_neg (by simp [hrc])]

/-- C9 witness: concrete runs exercising each outcome: empty cmd,
missing executable, unknown mode and unknown agent name exit 2; the
agent failing with code 3 propagates 3 with its stderr; the
successful agent returns its stdout. -/
theorem fatal_error_exit_codes_witness :
    (run_agent envW spEmpty "p" []).res = .error (.systemExit 2 "Agent cmd is empty.") ∧
    (run_agent envW spMissing "p" []).res =
      .error (.systemExit 2 ("Command not found on PATH: " ++ "nosuch")) ∧
    (run_agent envW spBadMode "p" []).res =
      .error (.systemExit 2 ("Unknown agent mode \x27" ++ "weird" ++
        "\x27. Expected stdin|arg|file.")) ∧
    load_agent_spec "claude" none =
      .error (.systemExit 2 ("Unknown agent \x27" ++ "claude" ++
        "\x27. Use --agent codex|copilot or provide --agent-config JSON.")) ∧
    load_agent_spec "x" (some ({} : RawAgentJson)) = .error (.keyError "cmd") ∧
    (run_agent envW spFail "p" []).res = .error (.systemExit 3 "boom") ∧
    (run_agent envW spOk "p" []).res = .ok "OK" := by
  refine ⟨fatal_error_exit_codes.1 envW spEmpty "p" [] rfl,
          fatal_error_exit_codes.2.1 envW spMissing "p" [] "nosuch" [] rfl (by decide),
          fatal_error_exit_codes.2.2.1 envW spBadMode "p" [] "mycli" [] "/usr/bin/mycli"
            rfl (by decide) rfl (by decide) (by decide) (by decide),
          fatal_error_exit_codes.2.2.2.1 "claude" (by decide),
          (fatal_error_exit_codes.2.2.2.2.1 "x" ({} : RawAgentJson) rfl).1,
          ?_, ?_⟩
  · exact (fatal_error_exit_codes.2.2.2.2.2 envW spFail "p" [] "mycli" ["--fail"]
      "/usr/bin/mycli" rfl (by decide) rfl rfl).1 (by decide)
  · exact (fatal_error_exit_codes.2.2.2.2.2 envW spOk "p" [] "mycli" []
      "/usr/bin/mycli" rfl (by decide) rfl rfl).2 (by decide)

theorem replaceFuel_u2011 : ∀ (f : Nat) (l : List Char) (c : Char),
    c ∈ replaceFuel f l ['\u2011'] ['-'] → c ≠ '\u2011' := by
  intro f
  induction f with
  | zero => intro l c hmem; simp [replaceFuel] at hmem
  | succ f ih =>
    intro l c hmem
    cases l with
    | nil => simp [replaceFuel] at hmem
    | cons a rest =>
      simp only [replaceFuel] at hmem
      split at hmem
      · rename_i hcond
        rw [List.mem_append] at hmem
        rcases hmem with hmem | hmem
        · simp at hmem
          subst hmem
          decide
        · have : List.drop (List.length ['\u2011']) (a :: rest) = rest := by simp
          rw [this] at hmem
          exact ih rest c hmem
      · rename_i hcond
        rcases List.mem_cons.mp hmem with hmem | hmem
        · subst hmem
          intro hca
          subst hca
          exact hcond (by simp)
        · exact ih rest c hmem

theorem run_agent_io_prompt (E : ExecEnv) (sp : AgentSpec) (p : String) (fs0 : List String) :
    (∀ call ∈ (run_agent E sp p fs0).calls, call.2 = p) ∧
    (∀ w ∈ (run_agent E sp p fs0).written, w.2 = p) := by
  cases hc : sp.cmd with
  | nil =>
    unfold run_agent
    rw [hc]
    exact ⟨by simp, by simp⟩
  | cons e tl =>
    cases hw : E.which e with
    | none =>
      unfold run_agent
      rw [hc]
      dsimp only
      rw [hw]
      exact ⟨by simp, by simp⟩
    | some r =>
      cases hn : ntWrap E r (r :: tl) with
      | error err =>
        unfold run_agent
        rw [hc]
        dsimp only
        rw [hw]
        dsimp only
        rw [hn]
        exact ⟨by simp, by simp⟩
      | ok cmd =>
        unfold run_agent
        rw [hc]
        dsimp only
        rw [hw]
        dsimp only
        rw [hn]
        dsimp only
        by_cases h1 : sp.mode = "stdin"
        · rw [if_pos h1]
          exact ⟨by simp, by simp⟩
        · rw [if_neg h1]
          by_cases h2 : sp.mode = "arg"
          · rw [if_pos h2]
            exact ⟨by simp, by simp⟩
          · rw [if_neg h2]
            by_cases h3 : sp.mode = "file"
            · rw [if_pos h3]
              exact ⟨by simp, by simp⟩
            · rw [if_neg h3]
              exact ⟨by simp, by simp⟩

/-- C10: after the orchestrator's sanitisation step the prompt
contains no non-breaking hyphen (U+2011), and in every agent run the
text delivered over each channel is exactly that sanitised prompt:
every spawned process receives it on standard input, and the file
written in file mode holds it. -/
theorem prompt_sanitized (p : String) :
    (∀ c ∈ (sanitizePrompt p).data, c ≠ '\u2011') ∧
    ∀ (E : ExecEnv) (sp : AgentSpec) (fs0 : List String),
      (∀ call ∈ (run_agent E sp (sanitizePrompt p) fs0).calls, call.2 = sanitizePrompt p) ∧
      (∀ w ∈ (run_agent E sp (sanitizePrompt p) fs0).written, w.2 = sanitizePrompt p) := by
  constructor
  · intro c hc
    have hdata : (sanitizePrompt p).data = replaceFuel p.data.length p.data ['\u2011'] ['-'] := by
      unfold sanitizePrompt pyReplace
      rw [if_neg (by decide)]
    rw [hdata] at hc
    exact replaceFuel_u2011 p.data.length p.data c hc
  · intro E sp fs0
    exact run_agent_io_prompt E sp (sanitizePrompt p) fs0

/-- C10 witness: a prompt containing U+2011 is rewritten to use an
ASCII hyphen and the result no longer contains U+2011. -/
theorem prompt_sanitized_witness :
    sanitizePrompt "a\u2011b" = "a-b" ∧ ¬ ('\u2011' ∈ (sanitizePrompt "a\u2011b").data) :=
  ⟨by decide, fun hmem => (prompt_sanitized "a\u2011b").1 '\u2011' hmem rfl⟩

end Coderev
